import Mathlib

/-!
Verification development for the plotting script of the
Parallelized-Option-Pricing-Simulator repository (src/plotter.py).

The script loads a CSV file with pandas, draws one line trace per non-axis
column on the implicit global pyplot canvas, fixes the x-range to
[0, last time value], shows the chart, and finally prints the head of the
loaded frame.  We give a shallow embedding of that pipeline: the table data
model, the relevant slice of the pandas `read_csv` ingest semantics, the
pyplot global canvas state, and the straight-line control flow of the
script, and prove the specified properties about it.
-/

instance {ε α : Type} [DecidableEq ε] [DecidableEq α] : DecidableEq (Except ε α) := fun a b =>
  match a, b with
  | .error e, .error f =>
    if h : e = f then .isTrue (by rw [h]) else .isFalse (fun hh => by cases hh; exact h rfl)
  | .ok x, .ok y =>
    if h : x = y then .isTrue (by rw [h]) else .isFalse (fun hh => by cases hh; exact h rfl)
  | .error _, .ok _ => .isFalse (fun hh => by cases hh)
  | .ok _, .error _ => .isFalse (fun hh => by cases hh)

/-- A cell value as pandas materialises it: a parsed numeric value (modelled
as a rational, standing in for the float the library produces), a missing
value (NaN), or a raw string kept verbatim when a column fails numeric
inference and stays at object dtype. -/
inductive Val where
  | num (q : ℚ)
  | nan
  | str (s : String)
  deriving DecidableEq, Repr

/-- A named column of a data frame: a name and an ordered list of cell
values, in row order. -/
structure Column where
  name : String
  values : List Val
  deriving DecidableEq, Repr

/-- An in-memory table (pandas DataFrame): an ordered list of named columns,
in header order. -/
structure Table where
  columns : List Column
  deriving DecidableEq, Repr

/-- Row count of a table, taken from its first column (all columns of a
loaded table have equal length). -/
def rowCount (df : Table) : ℕ :=
  match df.columns with
  | [] => 0
  | c :: _ => c.values.length

/-- Errors the loading stage can surface.  `malformedTableError` models the
`ParserError` that `pd.read_csv` raises while tokenizing the input. -/
inductive LoadError where
  | malformedTableError
  deriving DecidableEq, Repr

/-- Decimal numeric literal parser, modelling the numeric conversion pandas
applies to CSV fields: an optional sign, then digits with an optional
fractional part.  (The library also accepts exponent forms; the claims in
scope only exercise plain decimal fields, so those are not modelled.) -/
def parseFloat (s : String) : Option ℚ :=
  let cs := s.toList
  let signAndRest : ℤ × List Char :=
    match cs with
    | '-' :: rest => (-1, rest)
    | '+' :: rest => (1, rest)
    | _ => (1, cs)
  let sign := signAndRest.1
  let body := signAndRest.2
  let intPart := body.takeWhile (fun c => c ≠ '.')
  let rest := body.dropWhile (fun c => c ≠ '.')
  let digitsVal (l : List Char) : ℕ :=
    l.foldl (fun a c => 10 * a + (c.toNat - 48)) 0
  match rest with
  | [] =>
    if intPart ≠ [] ∧ intPart.all Char.isDigit then
      some (mkRat (sign * digitsVal intPart) 1)
    else none
  | _ :: frac =>
    if (intPart ≠ [] ∨ frac ≠ []) ∧ intPart.all Char.isDigit ∧ frac.all Char.isDigit then
      some (mkRat (sign * (digitsVal intPart * 10 ^ frac.length + digitsVal frac))
                  (10 ^ frac.length))
    else none

/-- One raw field of a data row: `none` when the row was shorter than the
header and the position is absent (pandas pads such positions with NaN). -/
abbrev RawField := Option String

/-- Whether a raw field is acceptable in a numeric column: absent and empty
fields become NaN, present fields must parse as numeric. -/
def fieldNumericOk (f : RawField) : Bool :=
  match f with
  | none => true
  | some s => s = "" ∨ (parseFloat s).isSome

/-- Column dtype inference as pandas performs it per column: when every
present field parses as numeric the column is numeric (absent or empty
fields become NaN); otherwise the whole column stays at object dtype and
every present field is kept as a string. -/
def inferColumn (fields : List RawField) : List Val :=
  if fields.all fieldNumericOk then
    fields.map (fun f =>
      match f with
      | none => Val.nan
      | some s =>
        match parseFloat s with
        | some q => Val.num q
        | none => Val.nan)
  else
    fields.map (fun f =>
      match f with
      | none => Val.nan
      | some s => Val.str s)

/-- The row width `pd.read_csv` parses against: normally the header's field
count, but when the first data row has more fields than the header the
expected width is widened to that row's field count — pandas' implicit-index
behavior, under which the leading excess fields of every row become the
DataFrame's row index rather than named columns. -/
def csvWidth (header : List String) (rows : List (List String)) : ℕ :=
  match rows with
  | [] => header.length
  | r :: _ => max header.length r.length

/-- The `pd.read_csv` ingest semantics on an already-tokenized file: a header
row of column names and the data rows as lists of fields.  The C tokenizer
fails (ParserError, surfaced here as `malformedTableError`) as soon as some
data row has more fields than the parsed row width (`csvWidth`): when the
first data row is longer than the header the width widens to it and the
load still succeeds, the leading excess fields of each row forming the
implicit row index — the index is never consulted by the charting pipeline,
so only the named columns are materialised here, each taking its field at
the index-shifted position.  A data row with fewer fields than the width is
padded with NaN, and fields that do not parse as numeric never fail the
load, they demote their column to object dtype. -/
def readCsv (header : List String) (rows : List (List String)) : Except LoadError Table :=
  if rows.any (fun r => csvWidth header rows < r.length) then
    .error .malformedTableError
  else
    .ok ⟨header.enum.map (fun p =>
      ⟨p.2, inferColumn (rows.map (fun r =>
        r.get? (csvWidth header rows - header.length + p.1)))⟩)⟩

/-- Errors the rendering stage can surface, named after the spec taxonomy
for the corresponding runtime failures of the script:
`unknownColumnError` models the KeyError from `df["time"]` when no such
column exists, `emptyAxisError` the IndexError from `df["time"].iloc[-1]`
on an empty column, and `dimensionMismatchError` the ValueError matplotlib
raises from `plt.plot` when x and y have different lengths. -/
inductive RenderError where
  | unknownColumnError
  | emptyAxisError
  | dimensionMismatchError
  deriving DecidableEq, Repr

/-- One line trace as `plt.plot(df["time"], df[column], label=column)`
creates it: x values, y values, and the legend label. -/
structure Trace where
  x : List Val
  y : List Val
  label : String
  deriving DecidableEq, Repr

/-- The global pyplot canvas state: the traces accumulated on the current
axes.  The script never creates, clears or closes a figure, so every plot
call appends to this ambient state. -/
structure PltState where
  traces : List Trace
  deriving DecidableEq, Repr

/-- The chart the script exhibits at `plt.show()`: the traces on the canvas,
the x-range (`none` would mean auto-scale; the script always sets it via
`plt.xlim(0, df["time"].iloc[-1])`), and the axis labels and title. -/
structure Chart where
  traces : List Trace
  xlim : Option (ℚ × Val)
  xlabel : String
  ylabel : String
  title : String
  deriving DecidableEq, Repr

/-- Column access `df[name]`: the first column with the given name, or the
KeyError (`unknownColumnError`) when the table has none. -/
def lookup (df : Table) (name : String) : Except RenderError (List Val) :=
  match df.columns.find? (fun c => c.name == name) with
  | some c => .ok c.values
  | none => .error .unknownColumnError

/-- One iteration of the plot loop body,
`plt.plot(df["time"], df[column], label=column)`: reads the time column
(KeyError if absent), checks the length agreement matplotlib enforces, and
yields the trace. -/
def mkTrace (df : Table) (c : Column) : Except RenderError Trace :=
  match lookup df "time" with
  | .error e => .error e
  | .ok xs =>
    if xs.length = c.values.length then
      .ok ⟨xs, c.values, c.name⟩
    else
      .error .dimensionMismatchError

/-- The plot loop `for column in df.columns: if column != "time": plt.plot(...)`,
run over the given column list: traces are produced in column order, columns
named "time" are skipped, and the first failing iteration aborts the loop. -/
def mkTraces (df : Table) : List Column → Except RenderError (List Trace)
  | [] => .ok []
  | c :: rest =>
    if c.name == "time" then
      mkTraces df rest
    else
      match mkTrace df c with
      | .error e => .error e
      | .ok t =>
        match mkTraces df rest with
        | .error e => .error e
        | .ok ts => .ok (t :: ts)

/-- The rendering part of the script run on a given canvas state: the plot
loop appends its traces to the canvas, then `plt.xlim(0, df["time"].iloc[-1])`
fixes the x-range (KeyError if the time column is absent, IndexError —
`emptyAxisError` — if it is empty), then labels and title are attached and
`plt.show()` exhibits the canvas.  Returns the canvas state after the call
together with the chart shown. -/
def renderOn (s : PltState) (df : Table) : Except RenderError (PltState × Chart) :=
  match mkTraces df df.columns with
  | .error e => .error e
  | .ok ts =>
    match lookup df "time" with
    | .error e => .error e
    | .ok xs =>
      match xs.getLast? with
      | none => .error .emptyAxisError
      | some v =>
        .ok (⟨s.traces ++ ts⟩,
          { traces := s.traces ++ ts
            xlim := some ((0 : ℚ), v)
            xlabel := "Time (in years)"
            ylabel := "Asset Price"
            title := "Simulated Option Price Paths Over Time" })

/-- Rendering on a fresh canvas, as a single run of the script performs it
(the interpreter starts with no figure). -/
def render (df : Table) : Except RenderError Chart :=
  match renderOn ⟨[]⟩ df with
  | .error e => .error e
  | .ok p => .ok p.2

/-- The head preview `df.head()`: the first (up to) 5 rows of every
column. -/
def dfHead (df : Table) : Table :=
  ⟨df.columns.map (fun c => ⟨c.name, c.values.take 5⟩)⟩

/-- Observable events of the script after loading: the chart exhibited by
`plt.show()` and the console print of `df.head()`. -/
inductive Event where
  | shown (c : Chart)
  | printed (t : Table)
  deriving DecidableEq, Repr

/-- The straight-line tail of the script on a loaded table: render and show
the chart, then print the head preview.  The result is the ordered list of
observable events. -/
def script (df : Table) : Except RenderError (List Event) :=
  match renderOn ⟨[]⟩ df with
  | .error e => .error e
  | .ok p => .ok [Event.shown p.2, Event.printed (dfHead df)]

/-! Concrete data used by witnesses and counterexamples. -/

/-- The table from the specification example: `time = [0, 1, 2]`,
`A = [10, 12, 9]`. -/
def sampleTable : Table :=
  ⟨[⟨"time", [Val.num 0, Val.num 1, Val.num 2]⟩,
    ⟨"A", [Val.num 10, Val.num 12, Val.num 9]⟩]⟩

/-- The chart the script renders from `sampleTable`. -/
def sampleChart : Chart :=
  { traces := [⟨[Val.num 0, Val.num 1, Val.num 2],
                [Val.num 10, Val.num 12, Val.num 9], "A"⟩]
    xlim := some ((0 : ℚ), Val.num 2)
    xlabel := "Time (in years)"
    ylabel := "Asset Price"
    title := "Simulated Option Price Paths Over Time" }

/-- First table of the repeated-render scenario: `time = [0]`, `A = [1]`. -/
def tbl1 : Table := ⟨[⟨"time", [Val.num 0]⟩, ⟨"A", [Val.num 1]⟩]⟩

/-- Second table of the repeated-render scenario: `time = [0]`, `B = [2]`. -/
def tbl2 : Table := ⟨[⟨"time", [Val.num 0]⟩, ⟨"B", [Val.num 2]⟩]⟩

/-- The trace the first render of the scenario draws. -/
def trA : Trace := ⟨[Val.num 0], [Val.num 1], "A"⟩

/-- The trace the second render of the scenario draws. -/
def trB : Trace := ⟨[Val.num 0], [Val.num 2], "B"⟩

/-- The chart shown by the second render of the scenario: it still carries
the stale trace of the first render. -/
def chartSecond : Chart :=
  { traces := [trA, trB]
    xlim := some ((0 : ℚ), Val.num 0)
    xlabel := "Time (in years)"
    ylabel := "Asset Price"
    title := "Simulated Option Price Paths Over Time" }

/-! Helper lemmas about the rendering pipeline. -/

/-- Anatomy of a successful `renderOn` call: the plot loop succeeded, the
time column exists and is non-empty, the canvas gained exactly the new
traces, and the chart shows the whole canvas with the fixed x-range and the
hard-coded labels. -/
theorem renderOn_ok_spec (s : PltState) (df : Table) (s2 : PltState) (c : Chart)
    (h : renderOn s df = .ok (s2, c)) :
    ∃ ts xs v,
      mkTraces df df.columns = .ok ts ∧
      lookup df "time" = .ok xs ∧
      xs.getLast? = some v ∧
      s2 = ⟨s.traces ++ ts⟩ ∧
      c = { traces := s.traces ++ ts
            xlim := some ((0 : ℚ), v)
            xlabel := "Time (in years)"
            ylabel := "Asset Price"
            title := "Simulated Option Price Paths Over Time" } := by
  unfold renderOn at h
  rcases hts : mkTraces df df.columns with e | ts <;> simp only [hts] at h
  · exact Except.noConfusion h
  rcases hxs : lookup df "time" with e | xs <;> simp only [hxs] at h
  · exact Except.noConfusion h
  rcases hv : xs.getLast? with _ | v <;> simp only [hv] at h
  · exact Except.noConfusion h
  refine ⟨ts, xs, v, rfl, rfl, hv, ?_, ?_⟩
  · exact (congrArg Prod.fst (Except.ok.inj h)).symm
  · exact (congrArg Prod.snd (Except.ok.inj h)).symm

/-- Anatomy of a successful `render`: the chart consists exactly of the
traces of the plot loop, with the fixed x-range. -/
theorem render_ok_spec (df : Table) (c : Chart) (h : render df = .ok c) :
    ∃ ts xs v,
      mkTraces df df.columns = .ok ts ∧
      lookup df "time" = .ok xs ∧
      xs.getLast? = some v ∧
      c = { traces := ts
            xlim := some ((0 : ℚ), v)
            xlabel := "Time (in years)"
            ylabel := "Asset Price"
            title := "Simulated Option Price Paths Over Time" } := by
  unfold render at h
  rcases hp : renderOn ⟨[]⟩ df with e | p <;> simp only [hp] at h
  · exact Except.noConfusion h
  have hc := Except.ok.inj h
  obtain ⟨ts, xs, v, h1, h2, h3, _, h5⟩ :=
    renderOn_ok_spec ⟨[]⟩ df p.1 p.2 (by rw [hp])
  refine ⟨ts, xs, v, h1, h2, h3, ?_⟩
  rw [← hc, h5]
  simp

/-- Characterisation of a successful single plot call: the trace pairs the
time values with the column's values under the column's name. -/
theorem mkTrace_ok (df : Table) (c : Column) (t : Trace) (xs : List Val)
    (hx : lookup df "time" = .ok xs) (h : mkTrace df c = .ok t) :
    t = Trace.mk xs c.values c.name := by
  unfold mkTrace at h
  simp only [hx] at h
  split at h
  · exact (Except.ok.inj h).symm
  · exact Except.noConfusion h

/-- When the plot loop succeeds it yields one trace per column not named
"time", in column order, each pairing the time values with that column's
values under the column's name. -/
theorem mkTraces_ok_shape (df : Table) (xs : List Val)
    (hx : lookup df "time" = .ok xs) :
    ∀ l ts, mkTraces df l = .ok ts →
      ts = (l.filter (fun c => !(c.name == "time"))).map
             (fun c => Trace.mk xs c.values c.name) := by
  intro l
  induction l with
  | nil =>
    intro ts h
    simp only [mkTraces] at h
    simp [← Except.ok.inj h]
  | cons c rest ih =>
    intro ts h
    simp only [mkTraces] at h
    by_cases hc : (c.name == "time") = true
    · rw [if_pos hc] at h
      simp [List.filter_cons, hc, ih ts h]
    · rw [if_neg hc] at h
      have hcf : (c.name == "time") = false := by
        exact Bool.not_eq_true _ ▸ hc
      rcases hmt : mkTrace df c with e | t <;> simp only [hmt] at h
      · exact Except.noConfusion h
      rcases hrest : mkTraces df rest with e | ts2 <;> simp only [hrest] at h
      · exact Except.noConfusion h
      have ht := mkTrace_ok df c t xs hx hmt
      have hts := ih ts2 hrest
      simp [← Except.ok.inj h, List.filter_cons, hcf, ht, hts]

/-- When the time column exists and matches every listed column in length,
the plot loop succeeds with exactly the expected traces. -/
theorem mkTraces_ok_of (df : Table) (xs : List Val)
    (hx : lookup df "time" = .ok xs) :
    ∀ l, (∀ c ∈ l, xs.length = c.values.length) →
      mkTraces df l
        = .ok ((l.filter (fun c => !(c.name == "time"))).map
                 (fun c => Trace.mk xs c.values c.name)) := by
  intro l
  induction l with
  | nil => intro _; simp [mkTraces]
  | cons c rest ih =>
    intro hlen
    have hrest := ih (fun d hd => hlen d (List.mem_cons_of_mem c hd))
    simp only [mkTraces]
    by_cases hc : (c.name == "time") = true
    · rw [if_pos hc, hrest, List.filter_cons]
      simp [hc]
    · rw [if_neg hc]
      have hcf : (c.name == "time") = false := by
        exact Bool.not_eq_true _ ▸ hc
      unfold mkTrace
      simp only [hx, if_pos (hlen c (List.mem_cons_self c rest)), hrest]
      simp [List.filter_cons, hcf]

/-- Length of the column list surviving the "time" skip: total minus the
number of columns named "time". -/
theorem length_filter_not_time (l : List Column) :
    (l.filter (fun c => !(c.name == "time"))).length
      = l.length - l.countP (fun c => c.name == "time") := by
  induction l with
  | nil => simp
  | cons c rest ih =>
    have hle := List.countP_le_length (p := fun c => c.name == "time") (l := rest)
    cases hc : (c.name == "time") with
    | false =>
      simp [List.filter_cons, List.countP_cons, hc, ih]
      omega
    | true =>
      simp [List.filter_cons, List.countP_cons, hc, ih]

/-- The chart shown by the first render of the repeated-render scenario. -/
def chartFirst : Chart :=
  { traces := [trA]
    xlim := some ((0 : ℚ), Val.num 0)
    xlabel := "Time (in years)"
    ylabel := "Asset Price"
    title := "Simulated Option Price Paths Over Time" }

/-- The zero-trace chart the script renders from a table whose only column
is the axis column `time = [0, 1, 2]`. -/
def axisOnlyChart : Chart :=
  { traces := []
    xlim := some ((0 : ℚ), Val.num 2)
    xlabel := "Time (in years)"
    ylabel := "Asset Price"
    title := "Simulated Option Price Paths Over Time" }

/-! Claim theorems. -/

/-- Claim C1: for a well-formed table (exactly one column named "time"), a
successful render produces exactly one line trace per non-axis column, in
table column order, each trace pairing the time values (independent
variable) with that column's values (dependent variable) under the column's
name as label, and the trace count equals the column count minus one. -/
theorem render_one_trace_per_series (df : Table) (chart : Chart)
    (hone : df.columns.countP (fun c => c.name == "time") = 1)
    (hok : render df = .ok chart) :
    ∃ xs, lookup df "time" = .ok xs ∧
      chart.traces
        = (df.columns.filter (fun c => !(c.name == "time"))).map
            (fun c => Trace.mk xs c.values c.name) ∧
      chart.traces.length = df.columns.length - 1 := by
  obtain ⟨ts, xs, v, h1, h2, h3, h4⟩ := render_ok_spec df chart hok
  subst h4
  refine ⟨xs, h2, ?_, ?_⟩
  · exact mkTraces_ok_shape df xs h2 df.columns ts h1
  · have hshape := mkTraces_ok_shape df xs h2 df.columns ts h1
    show ts.length = df.columns.length - 1
    rw [hshape, List.length_map, length_filter_not_time, hone]

/-- Witness for C1 at the specification example table. -/
theorem render_one_trace_per_series_witness :
    sampleTable.columns.countP (fun c => c.name == "time") = 1 ∧
    render sampleTable = .ok sampleChart ∧
    (∃ xs, lookup sampleTable "time" = .ok xs ∧
      sampleChart.traces
        = (sampleTable.columns.filter (fun c => !(c.name == "time"))).map
            (fun c => Trace.mk xs c.values c.name) ∧
      sampleChart.traces.length = sampleTable.columns.length - 1) :=
  ⟨by decide, by decide,
    render_one_trace_per_series sampleTable sampleChart (by decide) (by decide)⟩

/-- Claim C2: when the time column exists and is non-empty, the rendered
chart's horizontal range has lower bound 0 and upper bound equal to the last
value of the time column. -/
theorem xlim_fromZeroToLast (df : Table) (xs : List Val) (v : Val) (chart : Chart)
    (hx : lookup df "time" = .ok xs) (hlast : xs.getLast? = some v)
    (hok : render df = .ok chart) :
    chart.xlim = some ((0 : ℚ), v) := by
  obtain ⟨ts, xs2, v2, h1, h2, h3, h4⟩ := render_ok_spec df chart hok
  subst h4
  have hxx : xs = xs2 := Except.ok.inj (hx.symm.trans h2)
  subst hxx
  have hvv : v = v2 := Option.some.inj (hlast.symm.trans h3)
  subst hvv
  rfl

/-- Witness for C2 at the specification example: `time = [0, 1, 2]`,
`A = [10, 12, 9]` renders with x-range [0, 2]. -/
theorem xlim_fromZeroToLast_witness :
    lookup sampleTable "time" = .ok [Val.num 0, Val.num 1, Val.num 2] ∧
    [Val.num 0, Val.num 1, Val.num 2].getLast? = some (Val.num 2) ∧
    render sampleTable = .ok sampleChart ∧
    sampleChart.xlim = some ((0 : ℚ), Val.num 2) :=
  ⟨by decide, by decide, by decide,
    xlim_fromZeroToLast sampleTable [Val.num 0, Val.num 1, Val.num 2] (Val.num 2)
      sampleChart (by decide) (by decide) (by decide)⟩

/-- Counterexample to C3: a file whose second data row has one fewer field
than the header loads successfully (the missing field is padded with NaN)
instead of failing with MalformedTableError, and a file with a field that
does not parse as numeric also loads successfully (the field is kept as a
string); neither claimed failure condition fails the load. -/
theorem load_short_row_succeeds :
    (["1"] : List String).length ≠ (["time", "A"] : List String).length ∧
    readCsv ["time", "A"] [["0", "10"], ["1"]]
      = .ok ⟨[⟨"time", [Val.num 0, Val.num 1]⟩, ⟨"A", [Val.num 10, Val.nan]⟩]⟩ ∧
    readCsv ["time", "A"] [["0", "abc"]]
      = .ok ⟨[⟨"time", [Val.num 0]⟩, ⟨"A", [Val.str "abc"]⟩]⟩ := by
  decide

/-- Concrete check of the implicit-index widening: a file whose data rows
uniformly have one more field than the header loads successfully — the
leading field of each row becomes the row index, and the named columns take
the remaining fields — matching the pandas IO documentation on index
columns rather than raising ParserError. -/
theorem readCsv_implicit_index_example :
    readCsv ["time", "A"] [["7", "0", "10"], ["8", "1", "12"]]
      = .ok ⟨[⟨"time", [Val.num 0, Val.num 1]⟩, ⟨"A", [Val.num 10, Val.num 12]⟩]⟩ := by
  decide

/-- Claim C3 as amended: the load fails with MalformedTableError whenever
some data row has more fields than the parsed row width — the header's
field count, widened to the first data row's field count when that row is
longer (pandas' implicit-index behavior, where the leading excess fields
become the row index); a data row with fewer fields than the width is
padded with missing values and the load succeeds, and a field that cannot
be parsed as numeric never fails the load (its column is kept as
strings). -/
theorem load_fails_on_overwide_rows (header : List String) (rows : List (List String)) :
    ((∃ r ∈ rows, csvWidth header rows < r.length) →
      readCsv header rows = .error .malformedTableError) ∧
    ((∀ r ∈ rows, r.length ≤ csvWidth header rows) →
      ∃ t, readCsv header rows = .ok t) := by
  constructor
  · intro ⟨r, hr, hlt⟩
    have hany : rows.any (fun r => csvWidth header rows < r.length) = true :=
      List.any_eq_true.mpr ⟨r, hr, decide_eq_true hlt⟩
    unfold readCsv
    rw [hany]
    rfl
  · intro hall
    have hany : rows.any (fun r => csvWidth header rows < r.length) = false := by
      rw [List.any_eq_false]
      intro r hr
      simpa using Nat.not_lt.mpr (hall r hr)
    refine ⟨⟨header.enum.map (fun p =>
      ⟨p.2, inferColumn (rows.map (fun r =>
        r.get? (csvWidth header rows - header.length + p.1)))⟩)⟩, ?_⟩
    unfold readCsv
    rw [hany]
    rfl

/-- Claim C4: for every table without a column named "time", render fails
with UnknownColumnError (the KeyError from the `df["time"]` access). -/
theorem render_unknown_column (df : Table)
    (h : ∀ c ∈ df.columns, c.name ≠ "time") :
    render df = .error .unknownColumnError := by
  have hfind : df.columns.find? (fun c => c.name == "time") = none := by
    rw [List.find?_eq_none]
    intro c hc
    simpa using h c hc
  have hlook : lookup df "time" = .error .unknownColumnError := by
    unfold lookup
    rw [hfind]
  unfold render renderOn
  cases hcols : df.columns with
  | nil => simp [mkTraces, hlook]
  | cons c rest =>
    have hc : (c.name == "time") = false := by
      simpa using h c (by rw [hcols]; exact List.mem_cons_self c rest)
    simp [mkTraces, hc, mkTrace, hlook]

/-- Witness for C4 at a one-column table lacking the axis column. -/
theorem render_unknown_column_witness :
    render ⟨[⟨"price", [Val.num 1]⟩]⟩ = .error .unknownColumnError :=
  render_unknown_column ⟨[⟨"price", [Val.num 1]⟩]⟩ (by decide)

/-- Counterexample to C5: a table whose only column is the axis column
`time = [0, 1, 2]` renders successfully into a chart with zero traces
instead of failing with EmptySeriesSetError. -/
theorem render_axis_only_succeeds :
    render ⟨[⟨"time", [Val.num 0, Val.num 1, Val.num 2]⟩]⟩ = .ok axisOnlyChart := by
  decide

/-- Claim C5 as amended: for a table whose only column is the (non-empty)
axis column, render succeeds and produces a chart with zero traces; the
script performs no empty-series check. -/
theorem render_axis_only (df : Table) (xs : List Val) (v : Val)
    (hcols : df.columns = [⟨"time", xs⟩]) (hlast : xs.getLast? = some v) :
    render df
      = .ok { traces := []
              xlim := some ((0 : ℚ), v)
              xlabel := "Time (in years)"
              ylabel := "Asset Price"
              title := "Simulated Option Price Paths Over Time" } := by
  unfold render renderOn mkTraces lookup
  simp [hcols, mkTraces, hlast]

/-- Witness for C5 (amended) at the axis-only table from the spec. -/
theorem render_axis_only_witness :
    render ⟨[⟨"time", [Val.num 0, Val.num 1, Val.num 2]⟩]⟩
      = .ok { traces := []
              xlim := some ((0 : ℚ), Val.num 2)
              xlabel := "Time (in years)"
              ylabel := "Asset Price"
              title := "Simulated Option Price Paths Over Time" } :=
  render_axis_only ⟨[⟨"time", [Val.num 0, Val.num 1, Val.num 2]⟩]⟩
    [Val.num 0, Val.num 1, Val.num 2] (Val.num 2) rfl (by decide)

/-- Claim C6: when the time column is present but empty (a zero-row table),
render fails with EmptyAxisError (the IndexError from
`df["time"].iloc[-1]`). -/
theorem render_empty_axis (df : Table) (tc : Column)
    (hfind : df.columns.find? (fun c => c.name == "time") = some tc)
    (hempty : ∀ c ∈ df.columns, c.values = []) :
    render df = .error .emptyAxisError := by
  have htc : tc ∈ df.columns := List.mem_of_find?_eq_some hfind
  have hlook : lookup df "time" = .ok [] := by
    unfold lookup
    simp only [hfind]
    rw [hempty tc htc]
  have hmk := mkTraces_ok_of df [] hlook df.columns
    (fun c hc => by rw [hempty c hc])
  unfold render renderOn
  simp [hmk, hlook]

/-- Witness for C6 at a zero-row table with time and one series column. -/
theorem render_empty_axis_witness :
    render ⟨[⟨"time", ([] : List Val)⟩, ⟨"A", ([] : List Val)⟩]⟩
      = .error .emptyAxisError :=
  render_empty_axis ⟨[⟨"time", []⟩, ⟨"A", []⟩]⟩ ⟨"time", []⟩ (by decide) (by decide)

/-- Counterexample to C7: the script draws on the global pyplot canvas and
never creates, clears or closes a figure, so a second render in the same
session still shows the first call's trace: after rendering `tbl1` (trace
trA) and then `tbl2` (whose own traces are exactly [trB]), the second chart
shows [trA, trB], not [trB]. -/
theorem repeated_render_keeps_stale_traces :
    renderOn ⟨[]⟩ tbl1 = .ok (⟨[trA]⟩, chartFirst) ∧
    mkTraces tbl2 tbl2.columns = .ok [trB] ∧
    renderOn ⟨[trA]⟩ tbl2 = .ok (⟨[trA, trB]⟩, chartSecond) ∧
    chartSecond.traces ≠ [trB] := by
  decide

/-- Claim C7 as amended: the canvas state is not reset or scoped per
invocation; every successful render appends its traces to the incoming
canvas, and the chart it shows carries the previous traces followed by the
new ones. -/
theorem renderOn_accumulates (s : PltState) (df : Table) (s2 : PltState) (c : Chart)
    (h : renderOn s df = .ok (s2, c)) :
    ∃ ts, mkTraces df df.columns = .ok ts ∧
      c.traces = s.traces ++ ts ∧ s2.traces = s.traces ++ ts := by
  obtain ⟨ts, xs, v, h1, h2, h3, h4, h5⟩ := renderOn_ok_spec s df s2 c h
  exact ⟨ts, h1, by rw [h5], by rw [h4]⟩

/-- Witness for C7 (amended) at the second call of the scenario. -/
theorem renderOn_accumulates_witness :
    ∃ ts, mkTraces tbl2 tbl2.columns = .ok ts ∧
      chartSecond.traces = (⟨[trA]⟩ : PltState).traces ++ ts ∧
      (⟨[trA, trB]⟩ : PltState).traces = (⟨[trA]⟩ : PltState).traces ++ ts :=
  renderOn_accumulates ⟨[trA]⟩ tbl2 ⟨[trA, trB]⟩ chartSecond (by decide)

/-- Claim C8: whenever render succeeds the chart's horizontal range is fixed
to [0, last time value]; it is never left to auto-scale (`xlim = none`), on
any input. -/
theorem render_never_autoscale (df : Table) (chart : Chart)
    (hok : render df = .ok chart) :
    chart.xlim ≠ none ∧
    ∃ xs v, lookup df "time" = .ok xs ∧ xs.getLast? = some v ∧
      chart.xlim = some ((0 : ℚ), v) := by
  obtain ⟨ts, xs, v, h1, h2, h3, h4⟩ := render_ok_spec df chart hok
  subst h4
  exact ⟨by simp, xs, v, h2, h3, rfl⟩

/-- Witness for C8 at the specification example table. -/
theorem render_never_autoscale_witness :
    sampleChart.xlim ≠ none ∧
    ∃ xs v, lookup sampleTable "time" = .ok xs ∧ xs.getLast? = some v ∧
      sampleChart.xlim = some ((0 : ℚ), v) :=
  render_never_autoscale sampleTable sampleChart (by decide)

/-- Claim C9: in every successful run of the script the console preview of
the loaded table's head is the last observable event, after the chart has
been shown; the event list is exactly [shown chart, printed head]. -/
theorem preview_after_render (df : Table) (evs : List Event)
    (h : script df = .ok evs) :
    ∃ c, evs = [Event.shown c, Event.printed (dfHead df)] := by
  unfold script at h
  rcases hp : renderOn ⟨[]⟩ df with e | p <;> simp only [hp] at h
  · exact Except.noConfusion h
  · exact ⟨p.2, (Except.ok.inj h).symm⟩

/-- Witness for C9 at the specification example table. -/
theorem preview_after_render_witness :
    ∃ c, [Event.shown sampleChart, Event.printed (dfHead sampleTable)]
      = [Event.shown c, Event.printed (dfHead sampleTable)] :=
  preview_after_render sampleTable
    [Event.shown sampleChart, Event.printed (dfHead sampleTable)] (by decide)

/-- Claim C10: for every table with uniform column lengths, the head preview
holds exactly the first min(5, rowCount) rows of every column, in row
order. -/
theorem preview_first_min5_rows (df : Table)
    (h : ∀ c ∈ df.columns, c.values.length = rowCount df) :
    (dfHead df).columns
      = df.columns.map
          (fun c => Column.mk c.name (c.values.take (min 5 (rowCount df)))) ∧
    rowCount (dfHead df) = min 5 (rowCount df) := by
  constructor
  · show (df.columns.map (fun c => Column.mk c.name (c.values.take 5))) = _
    apply List.map_congr_left
    intro c hc
    have hlen := h c hc
    have htake : c.values.take 5 = c.values.take (min 5 (rowCount df)) := by
      rw [List.take_eq_take]
      omega
    rw [htake]
  · show rowCount ⟨df.columns.map (fun c => Column.mk c.name (c.values.take 5))⟩ = _
    cases hcols : df.columns with
    | nil =>
      have : rowCount df = 0 := by rw [rowCount, hcols]
      rw [this]
      rfl
    | cons c rest =>
      have hc := h c (by rw [hcols]; exact List.mem_cons_self c rest)
      have : rowCount ⟨(c :: rest).map (fun c => Column.mk c.name (c.values.take 5))⟩
          = min 5 c.values.length := by
        simp [rowCount]
      rw [this, hc]

/-- Witness for C10 at the three-row example table: fewer than 5 rows, so
all rows are shown. -/
theorem preview_first_min5_rows_witness :
    (dfHead sampleTable).columns
      = sampleTable.columns.map
          (fun c => Column.mk c.name (c.values.take (min 5 (rowCount sampleTable)))) ∧
    rowCount (dfHead sampleTable) = min 5 (rowCount sampleTable) :=
  preview_first_min5_rows sampleTable (by decide)
